import Mathlib

/-!
Shallow embedding of `src/native/src/edrawings_preview.cpp` (bluerobotics/bluePLM).

The C++ file is an N-API addon wrapping the eDrawings ActiveX control.  The
mutable state of one `EDrawingsPreview` instance is its six member fields
(lines 49-54 of the source).  Win32/COM calls whose outcomes the addon cannot
control (`IsWindow`, `CreateWindowExW`, `CoCreateInstance`, `QueryInterface`,
`GetIDsOfNames`, `Invoke`, `SetWindowPos`) are modelled by per-call
environment records that fix each outcome, and every operation additionally
returns the list of observable OS/COM effects it performed, so that claims
about "no COM activity" or "no window operation" are statable.

Window handles (`HWND`) are modelled as `Nat` with `0` for the null handle;
COM interface pointers (`IUnknown*`, `IDispatch*`) are modelled as `Bool`
(held / not held), which is all the source ever inspects.  An N-API call
result is either a thrown `TypeError` (`ThrowAsJavaScriptException`) or an
ordinary boolean return value.
-/

set_option linter.unusedVariables false

/-- Machine state of one `EDrawingsPreview` instance: the six member fields
declared at lines 49-54 of `edrawings_preview.cpp`. -/
structure PreviewState where
  m_hwndParent : Nat
  m_hwndContainer : Nat
  m_pControl : Bool
  m_pDispatch : Bool
  m_isAttached : Bool
  m_isFileLoaded : Bool
deriving Repr, DecidableEq

/-- Member initializers of `EDrawingsPreview`: all handles null, all flags
false (lines 49-54). -/
def initState : PreviewState :=
  { m_hwndParent := 0, m_hwndContainer := 0, m_pControl := false,
    m_pDispatch := false, m_isAttached := false, m_isFileLoaded := false }

/-- JavaScript values as the addon distinguishes them via `IsBuffer` /
`IsNumber` / `IsString`: a number (its `Int64Value`), a string (its UTF-8
value), a byte buffer, or any other value. -/
inductive JsVal where
  | num (n : Int)
  | str (s : String)
  | buf (bytes : List Nat)
  | other
deriving Repr, DecidableEq

/-- Observable OS/COM side effects an operation performs, in order. -/
inductive Effect where
  | registerClass
  | createWindow (parent : Nat)
  | destroyWindow (hwnd : Nat)
  | coCreateInstance
  | queryInterface
  | releaseDispatch
  | releaseControl
  | getIDsOfNames (name : String)
  | invokeMethod (path : String)
  | setWindowPos (hwnd : Nat) (x y w h : Int)
  | showWindow (hwnd : Nat) (visible : Bool)
deriving Repr, DecidableEq

/-- Result of an N-API method as the JavaScript caller observes it: either a
pending thrown error (`ThrowAsJavaScriptException`) or a returned boolean. -/
inductive NapiResult where
  | threw (msg : String)
  | ret (b : Bool)
deriving Repr, DecidableEq

/-- Full outcome of one N-API method call: caller-visible result, successor
instance state, and the OS/COM effects performed. -/
abbrev OpOut := NapiResult × PreviewState × List Effect

/-- Outcomes of the OS/COM calls made during `AttachToWindow` /
`CreateControl`: which handles `IsWindow` accepts, the handle returned by
`CreateWindowExW` (0 = failure), and whether `CoCreateInstance` and
`QueryInterface` succeed. -/
structure AttachEnv where
  isWindow : Nat → Bool
  createWindowHwnd : Nat
  coCreateOk : Bool
  queryInterfaceOk : Bool

/-- Outcomes of the two IDispatch calls made during `LoadFile`:
`GetIDsOfNames` success and `Invoke` success. -/
structure LoadEnv where
  getIdsOk : Bool
  invokeOk : Bool

/-- Outcome of the `SetWindowPos` call made during `SetBounds`.  The source
never reads this result. -/
structure BoundsEnv where
  setWindowPosOk : Bool

/-- Little-endian decoding of `*reinterpret_cast<HWND*>(buf.Data())` at line
264: reads the first 8 bytes when the buffer holds at least `sizeof(HWND)`
bytes, otherwise the `hwnd` local keeps its null initializer (lines 260-265). -/
def bytesToHwnd (bytes : List Nat) : Nat :=
  if 8 ≤ bytes.length then
    (bytes.take 8).foldr (fun b acc => acc * 256 + b % 256) 0
  else 0

/-- Decoding of `info[0]` into the `hwnd` local of `AttachToWindow` (lines
260-268): a buffer is reinterpreted as a pointer, a number is cast via
`Int64Value` (two's-complement bit pattern), anything else leaves `hwnd`
null. -/
def attachHwnd (args : List JsVal) : Nat :=
  match args.head? with
  | some (JsVal.buf bytes) => bytesToHwnd bytes
  | some (JsVal.num n) => (n % (2 ^ 64 : Int)).toNat
  | _ => 0

/-- Wrapping of `Napi::Number::Int32Value` to a signed 32-bit value. -/
def int32Of (n : Int) : Int := (n + 2 ^ 31) % 2 ^ 32 - 2 ^ 31

/-- Embedding of `EDrawingsPreview::CreateControl` (lines 176-232): early
success when already attached; otherwise register the container class, create
the container window, instantiate the eDrawings COM object, query its
`IDispatch`, undoing partial work on each failure path exactly as the source
does. -/
def EDrawingsPreview.CreateControl (env : AttachEnv) (parentHwnd : Nat)
    (s : PreviewState) : Bool × PreviewState × List Effect :=
  if s.m_isAttached then (true, s, [])
  else
    let hc := env.createWindowHwnd
    let tr0 := [Effect.registerClass, Effect.createWindow parentHwnd]
    let s0 := { s with m_hwndContainer := hc }
    if hc = 0 then (false, s0, tr0)
    else if ¬ env.coCreateOk then
      (false, { s0 with m_pControl := false, m_hwndContainer := 0 },
        tr0 ++ [Effect.coCreateInstance, Effect.destroyWindow hc])
    else if ¬ env.queryInterfaceOk then
      (false, { s0 with m_pControl := false, m_pDispatch := false,
                        m_hwndContainer := 0 },
        tr0 ++ [Effect.coCreateInstance, Effect.queryInterface,
                Effect.releaseControl, Effect.destroyWindow hc])
    else
      (true, { s0 with m_pControl := true, m_pDispatch := true,
                       m_hwndParent := parentHwnd, m_isAttached := true },
        tr0 ++ [Effect.coCreateInstance, Effect.queryInterface])

/-- Embedding of `EDrawingsPreview::DestroyControl` (lines 234-249): release
the dispatch reference, then the control reference, then destroy the
container window, each only when held; reset the attached and loaded flags.
`m_hwndParent` is not touched by the source. -/
def EDrawingsPreview.DestroyControl (s : PreviewState) :
    PreviewState × List Effect :=
  ({ s with m_pDispatch := false, m_pControl := false, m_hwndContainer := 0,
            m_isAttached := false, m_isFileLoaded := false },
    (if s.m_pDispatch then [Effect.releaseDispatch] else []) ++
    (if s.m_pControl then [Effect.releaseControl] else []) ++
    (if s.m_hwndContainer ≠ 0 then [Effect.destroyWindow s.m_hwndContainer]
     else []))

/-- Embedding of `EDrawingsPreview::AttachToWindow` (lines 251-275): throws a
`TypeError` on arity < 1, decodes the handle from a buffer or number, returns
false on a null or non-live handle, otherwise defers to `CreateControl`. -/
def EDrawingsPreview.AttachToWindow (args : List JsVal) (env : AttachEnv)
    (s : PreviewState) : OpOut :=
  if args.length < 1 then
    (NapiResult.threw "Window handle (HWND as number) expected", s, [])
  else
    let hwnd := attachHwnd args
    if hwnd = 0 ∨ env.isWindow hwnd = false then (NapiResult.ret false, s, [])
    else
      let r := EDrawingsPreview.CreateControl env hwnd s
      (NapiResult.ret r.1, r.2.1, r.2.2)

/-- Embedding of `EDrawingsPreview::LoadFile` (lines 277-327): returns false
when not attached or no dispatch reference is held (line 280), throws a
`TypeError` when the first argument is missing or not a string, otherwise
looks up `OpenDoc` via `GetIDsOfNames` and, on success, invokes it; the
loaded flag records `SUCCEEDED(hr)` of the last HRESULT (line 325). -/
def EDrawingsPreview.LoadFile (args : List JsVal) (env : LoadEnv)
    (s : PreviewState) : OpOut :=
  if s.m_isAttached = false ∨ s.m_pDispatch = false then
    (NapiResult.ret false, s, [])
  else
    match args.head? with
    | some (JsVal.str path) =>
      if env.getIdsOk then
        (NapiResult.ret env.invokeOk, { s with m_isFileLoaded := env.invokeOk },
          [Effect.getIDsOfNames "OpenDoc", Effect.invokeMethod path])
      else
        (NapiResult.ret false, { s with m_isFileLoaded := false },
          [Effect.getIDsOfNames "OpenDoc"])
    | _ => (NapiResult.threw "File path expected", s, [])

/-- Embedding of `EDrawingsPreview::SetBounds` (lines 329-350): returns false
when no container window exists (line 332), throws a `TypeError` on arity <
4, converts the four arguments via `Int32Value` (which raises an N-API error
on a non-number), calls `SetWindowPos` discarding its result, and returns
true. -/
def EDrawingsPreview.SetBounds (args : List JsVal) (env : BoundsEnv)
    (s : PreviewState) : OpOut :=
  if s.m_hwndContainer = 0 then (NapiResult.ret false, s, [])
  else if args.length < 4 then
    (NapiResult.threw "x, y, width, height expected", s, [])
  else
    match args with
    | JsVal.num x :: JsVal.num y :: JsVal.num w :: JsVal.num h :: _ =>
      (NapiResult.ret true, s,
        [Effect.setWindowPos s.m_hwndContainer (int32Of x) (int32Of y)
          (int32Of w) (int32Of h)])
    | _ => (NapiResult.threw "A number was expected", s, [])

/-- Embedding of `EDrawingsPreview::Show` (lines 352-359). -/
def EDrawingsPreview.Show (s : PreviewState) : OpOut :=
  if s.m_hwndContainer ≠ 0 then
    (NapiResult.ret true, s, [Effect.showWindow s.m_hwndContainer true])
  else (NapiResult.ret false, s, [])

/-- Embedding of `EDrawingsPreview::Hide` (lines 361-368). -/
def EDrawingsPreview.Hide (s : PreviewState) : OpOut :=
  if s.m_hwndContainer ≠ 0 then
    (NapiResult.ret true, s, [Effect.showWindow s.m_hwndContainer false])
  else (NapiResult.ret false, s, [])

/-- Embedding of `EDrawingsPreview::Destroy` (lines 370-374): runs
`DestroyControl` and always returns true. -/
def EDrawingsPreview.Destroy (s : PreviewState) : OpOut :=
  let r := EDrawingsPreview.DestroyControl s
  (NapiResult.ret true, r.1, r.2)

/-- Embedding of `EDrawingsPreview::IsLoaded` (lines 376-378). -/
def EDrawingsPreview.IsLoaded (s : PreviewState) : Bool := s.m_isFileLoaded

/-- One N-API method call on a preview instance, together with its arguments
and the outcomes of the OS/COM calls it will make. -/
inductive Op where
  | attach (args : List JsVal) (env : AttachEnv)
  | load (args : List JsVal) (env : LoadEnv)
  | bounds (args : List JsVal) (env : BoundsEnv)
  | showOp
  | hideOp
  | destroyOp

/-- Successor state of one method call (the state component of the call's
outcome). -/
def step (s : PreviewState) : Op → PreviewState
  | Op.attach args env => (EDrawingsPreview.AttachToWindow args env s).2.1
  | Op.load args env => (EDrawingsPreview.LoadFile args env s).2.1
  | Op.bounds args env => (EDrawingsPreview.SetBounds args env s).2.1
  | Op.showOp => (EDrawingsPreview.Show s).2.1
  | Op.hideOp => (EDrawingsPreview.Hide s).2.1
  | Op.destroyOp => (EDrawingsPreview.Destroy s).2.1

/-- State after running a sequence of method calls from a given state. -/
def run (s : PreviewState) (ops : List Op) : PreviewState := ops.foldl step s

/-- States a preview instance can actually be in: reachable from the
freshly-constructed state by some sequence of method calls. -/
def Reachable (s : PreviewState) : Prop := ∃ ops : List Op, run initState ops = s

/-- Inductive state invariant of the implementation: an attached instance
holds the control, the dispatch reference and a container window; an
unattached instance holds none of them and is not loaded. -/
def StrongInv (s : PreviewState) : Bool :=
  if s.m_isAttached then
    s.m_pControl && s.m_pDispatch && decide (s.m_hwndContainer ≠ 0)
  else
    !s.m_pControl && !s.m_pDispatch && decide (s.m_hwndContainer = 0) &&
      !s.m_isFileLoaded

/-- State invariant claimed by the specification: dispatch only with control,
container window only when attached, loaded only when attached. -/
def SpecInv (s : PreviewState) : Bool :=
  (!s.m_pDispatch || s.m_pControl) &&
  (decide (s.m_hwndContainer = 0) || s.m_isAttached) &&
  (!s.m_isFileLoaded || s.m_isAttached)

/-- Helper: `AttachToWindow` preserves the inductive invariant. -/
theorem strongInv_attach (args : List JsVal) (env : AttachEnv)
    (s : PreviewState) (h : StrongInv s = true) :
    StrongInv (EDrawingsPreview.AttachToWindow args env s).2.1 = true := by
  obtain ⟨p, c, ctl, dsp, att, ld⟩ := s
  simp only [EDrawingsPreview.AttachToWindow, EDrawingsPreview.CreateControl]
  cases att
  all_goals repeat' split
  all_goals simp_all [StrongInv]

/-- Helper: `LoadFile` preserves the inductive invariant. -/
theorem strongInv_load (args : List JsVal) (env : LoadEnv)
    (s : PreviewState) (h : StrongInv s = true) :
    StrongInv (EDrawingsPreview.LoadFile args env s).2.1 = true := by
  obtain ⟨p, c, ctl, dsp, att, ld⟩ := s
  simp only [EDrawingsPreview.LoadFile]
  cases att
  all_goals repeat' split
  all_goals simp_all [StrongInv]

/-- Helper: `SetBounds` never changes the instance state. -/
theorem setBounds_state_eq (args : List JsVal) (env : BoundsEnv)
    (s : PreviewState) : (EDrawingsPreview.SetBounds args env s).2.1 = s := by
  unfold EDrawingsPreview.SetBounds
  split <;> try rfl
  split <;> try rfl
  split <;> rfl

/-- Helper: `Show` never changes the instance state. -/
theorem show_state_eq (s : PreviewState) :
    (EDrawingsPreview.Show s).2.1 = s := by
  unfold EDrawingsPreview.Show
  split <;> rfl

/-- Helper: `Hide` never changes the instance state. -/
theorem hide_state_eq (s : PreviewState) :
    (EDrawingsPreview.Hide s).2.1 = s := by
  unfold EDrawingsPreview.Hide
  split <;> rfl

/-- Helper: the state left behind by `Destroy` satisfies the inductive
invariant unconditionally. -/
theorem strongInv_destroy (s : PreviewState) :
    StrongInv (EDrawingsPreview.Destroy s).2.1 = true := by
  simp [EDrawingsPreview.Destroy, EDrawingsPreview.DestroyControl, StrongInv]

/-- Helper: every single method call preserves the inductive invariant. -/
theorem strongInv_step (s : PreviewState) (op : Op) (h : StrongInv s = true) :
    StrongInv (step s op) = true := by
  cases op with
  | attach args env => exact strongInv_attach args env s h
  | load args env => exact strongInv_load args env s h
  | bounds args env => rw [step, setBounds_state_eq]; exact h
  | showOp => rw [step, show_state_eq]; exact h
  | hideOp => rw [step, hide_state_eq]; exact h
  | destroyOp => exact strongInv_destroy s

/-- Helper: the inductive invariant holds along every run. -/
theorem strongInv_run (ops : List Op) (s : PreviewState)
    (h : StrongInv s = true) : StrongInv (run s ops) = true := by
  induction ops generalizing s with
  | nil => exact h
  | cons op rest ih => exact ih (step s op) (strongInv_step s op h)

/-- Helper: every reachable state satisfies the inductive invariant. -/
theorem strongInv_reachable (s : PreviewState) (h : Reachable s) :
    StrongInv s = true := by
  obtain ⟨ops, hops⟩ := h
  have := strongInv_run ops initState (by decide)
  rwa [hops] at this

/-- Helper: the inductive invariant implies the specified invariant. -/
theorem specInv_of_strongInv (s : PreviewState) (h : StrongInv s = true) :
    SpecInv s = true := by
  obtain ⟨p, c, ctl, dsp, att, ld⟩ := s
  cases att <;> simp_all [StrongInv, SpecInv]

/-- Helper: on a reachable attached instance the control, the dispatch
reference and the container window are all held. -/
theorem attached_fields (s : PreviewState) (hs : StrongInv s = true)
    (hatt : s.m_isAttached = true) :
    s.m_pControl = true ∧ s.m_pDispatch = true ∧ s.m_hwndContainer ≠ 0 := by
  obtain ⟨p, c, ctl, dsp, att, ld⟩ := s
  simp_all [StrongInv]

/-- Helper: an unattached state satisfying the inductive invariant is the
initial state up to its write-only parent handle member. -/
theorem unattached_shape (s : PreviewState) (hs : StrongInv s = true)
    (hatt : s.m_isAttached = false) :
    s = ⟨s.m_hwndParent, 0, false, false, false, false⟩ := by
  obtain ⟨p, c, ctl, dsp, att, ld⟩ := s
  simp_all [StrongInv]

/-- Attach environment in which every OS/COM call succeeds and the container
window receives handle 7. -/
def envAllOk : AttachEnv :=
  { isWindow := fun _ => true, createWindowHwnd := 7, coCreateOk := true,
    queryInterfaceOk := true }

/-- Attach environment in which `IsWindow` rejects every handle. -/
def envNoWindow : AttachEnv :=
  { isWindow := fun _ => false, createWindowHwnd := 7, coCreateOk := true,
    queryInterfaceOk := true }

/-- Attach environment in which `CreateWindowExW` fails. -/
def envCreateFails : AttachEnv :=
  { isWindow := fun _ => true, createWindowHwnd := 0, coCreateOk := true,
    queryInterfaceOk := true }

/-- State after one successful attach to parent window 5. -/
def attachedState : PreviewState :=
  run initState [Op.attach [JsVal.num 5] envAllOk]

/-- State after a successful attach to parent window 5 followed by destroy. -/
def detachedState : PreviewState :=
  run initState [Op.attach [JsVal.num 5] envAllOk, Op.destroyOp]

/-- Claim C1: after every sequence of method calls on a freshly constructed
preview instance, the claimed state invariant holds: the dispatch reference
is non-null only if the control reference is non-null, the container window
handle is non-null only if the attached flag is set, and the file-loaded
flag is set only if the attached flag is set. -/
theorem c1_state_invariant (ops : List Op) :
    SpecInv (run initState ops) = true :=
  specInv_of_strongInv _ (strongInv_run ops initState (by decide))

/-- Claim C6 counterexample: after a successful attach to parent window 5
followed by destroy, a second destroy returns true and leaves the state
unchanged, but the parent window handle member still holds 5, so not all
handle members are null in the resulting unattached state, contrary to the
claim. -/
theorem c6_counterexample :
    (EDrawingsPreview.Destroy attachedState).1 = NapiResult.ret true ∧
    (EDrawingsPreview.Destroy
      (EDrawingsPreview.Destroy attachedState).2.1).1 = NapiResult.ret true ∧
    (EDrawingsPreview.Destroy
        (EDrawingsPreview.Destroy attachedState).2.1).2.1
      = (EDrawingsPreview.Destroy attachedState).2.1 ∧
    (EDrawingsPreview.Destroy
        (EDrawingsPreview.Destroy attachedState).2.1).2.1.m_hwndParent
      = 5 := by
  decide

/-- Claim C6 (amended): destroy always returns true and is idempotent: a
second (or any further) call also returns true and leaves the state
unchanged, with the attached and loaded flags false and the container
window handle and control and dispatch references null; the borrowed parent
window handle member is not cleared by destroy and retains its previous
value. -/
theorem c6_destroy_idempotent (s : PreviewState) :
    (EDrawingsPreview.Destroy s).1 = NapiResult.ret true ∧
    (EDrawingsPreview.Destroy
      (EDrawingsPreview.Destroy s).2.1).1 = NapiResult.ret true ∧
    (EDrawingsPreview.Destroy (EDrawingsPreview.Destroy s).2.1).2.1
      = (EDrawingsPreview.Destroy s).2.1 ∧
    (EDrawingsPreview.Destroy s).2.1.m_isAttached = false ∧
    (EDrawingsPreview.Destroy s).2.1.m_isFileLoaded = false ∧
    (EDrawingsPreview.Destroy s).2.1.m_hwndContainer = 0 ∧
    (EDrawingsPreview.Destroy s).2.1.m_pControl = false ∧
    (EDrawingsPreview.Destroy s).2.1.m_pDispatch = false ∧
    (EDrawingsPreview.Destroy s).2.1.m_hwndParent = s.m_hwndParent := by
  refine ⟨rfl, rfl, ?_, rfl, rfl, rfl, rfl, rfl, rfl⟩
  simp [EDrawingsPreview.Destroy, EDrawingsPreview.DestroyControl]

/-- Claim C7: loadFile on an unattached instance returns false for every
argument list and every dispatch environment, with no COM activity (empty
effect trace, so neither a GetIDsOfNames lookup nor an Invoke happens) and
an unchanged state. -/
theorem c7_load_unattached_noop (args : List JsVal) (env : LoadEnv)
    (s : PreviewState) (h : s.m_isAttached = false) :
    EDrawingsPreview.LoadFile args env s = (NapiResult.ret false, s, []) := by
  simp [EDrawingsPreview.LoadFile, h]

/-- Claim C7 witness at a concrete input. -/
theorem c7_witness :
    EDrawingsPreview.LoadFile [JsVal.str "C:\\part.SLDPRT"]
        { getIdsOk := true, invokeOk := true } initState
      = (NapiResult.ret false, initState, []) :=
  c7_load_unattached_noop _ _ _ (by decide)

/-- Claim C8: on a reachable unattached instance, setBounds, show and hide
each return false, perform no window operation (empty effect trace) and
leave the state unchanged. -/
theorem c8_unattached_ops_noop (args : List JsVal) (env : BoundsEnv)
    (s : PreviewState) (hr : Reachable s) (h : s.m_isAttached = false) :
    EDrawingsPreview.SetBounds args env s = (NapiResult.ret false, s, []) ∧
    EDrawingsPreview.Show s = (NapiResult.ret false, s, []) ∧
    EDrawingsPreview.Hide s = (NapiResult.ret false, s, []) := by
  have hc : s.m_hwndContainer = 0 := by
    rw [unattached_shape s (strongInv_reachable s hr) h]
  refine ⟨?_, ?_, ?_⟩ <;>
    simp [EDrawingsPreview.SetBounds, EDrawingsPreview.Show,
      EDrawingsPreview.Hide, hc]

/-- Claim C8 witness at a concrete input. -/
theorem c8_witness :
    EDrawingsPreview.SetBounds [] { setWindowPosOk := true } initState
      = (NapiResult.ret false, initState, []) ∧
    EDrawingsPreview.Show initState = (NapiResult.ret false, initState, []) ∧
    EDrawingsPreview.Hide initState = (NapiResult.ret false, initState, []) :=
  c8_unattached_ops_noop [] { setWindowPosOk := true } initState
    ⟨[], rfl⟩ (by decide)

/-- Claim C10: on a reachable attached instance, setBounds with four numeric
arguments returns true in every bounds environment — in particular also when
the underlying SetWindowPos call fails — because the source discards the
SetWindowPos return value. -/
theorem c10_setBounds_unconditional_true (x y w h : Int) (env : BoundsEnv)
    (s : PreviewState) (hr : Reachable s) (hatt : s.m_isAttached = true) :
    (EDrawingsPreview.SetBounds
        [JsVal.num x, JsVal.num y, JsVal.num w, JsVal.num h] env s).1
      = NapiResult.ret true := by
  obtain ⟨hctl, hdsp, hc⟩ := attached_fields s (strongInv_reachable s hr) hatt
  simp [EDrawingsPreview.SetBounds, hc]

/-- Claim C10 witness at a concrete input, with a failing SetWindowPos. -/
theorem c10_witness :
    (EDrawingsPreview.SetBounds
        [JsVal.num 0, JsVal.num 0, JsVal.num 640, JsVal.num 480]
        { setWindowPosOk := false } attachedState).1
      = NapiResult.ret true :=
  c10_setBounds_unconditional_true 0 0 640 480 { setWindowPosOk := false }
    attachedState ⟨[Op.attach [JsVal.num 5] envAllOk], rfl⟩ (by decide)

/-- Claim C2 counterexample: on an instance that is already attached, a call
to attachToWindow with a handle that is not a live window returns false, but
the instance stays attached — it is not left in the Unattached state as the
claim requires for every starting state. -/
theorem c2_counterexample :
    (EDrawingsPreview.AttachToWindow [JsVal.num 9] envNoWindow
        attachedState).1 = NapiResult.ret false ∧
    (EDrawingsPreview.AttachToWindow [JsVal.num 9] envNoWindow
        attachedState).2.1.m_isAttached = true := by
  decide

/-- Claim C2 (amended): a call to attachToWindow whose decoded handle is
null or does not refer to a live window returns false, performs no effect
and leaves the instance state unchanged, whatever that state is; in
particular an unattached instance remains Unattached (attached flag false,
no container window, no control or dispatch references). -/
theorem c2_attach_invalid_unchanged (args : List JsVal) (env : AttachEnv)
    (s : PreviewState) (hlen : 1 ≤ args.length)
    (hbad : attachHwnd args = 0 ∨ env.isWindow (attachHwnd args) = false) :
    EDrawingsPreview.AttachToWindow args env s
      = (NapiResult.ret false, s, []) := by
  simp only [EDrawingsPreview.AttachToWindow]
  rw [if_neg (by omega), if_pos hbad]

/-- Claim C2 witness at a concrete input: a null handle encoded as number 0
on a fresh instance. -/
theorem c2_witness :
    EDrawingsPreview.AttachToWindow [JsVal.num 0] envAllOk initState
      = (NapiResult.ret false, initState, []) :=
  c2_attach_invalid_unchanged [JsVal.num 0] envAllOk initState (by decide)
    (Or.inl (by decide))

/-- Claim C3: on a reachable attached instance, a loadFile call that returns
false leaves the instance attached with the loaded flag false afterwards,
even when a previous load had succeeded (the flag is overwritten by the
outcome of every completed load). -/
theorem c3_load_failure_attached_unloaded (args : List JsVal) (env : LoadEnv)
    (s : PreviewState) (hr : Reachable s) (hatt : s.m_isAttached = true)
    (hfail : (EDrawingsPreview.LoadFile args env s).1 = NapiResult.ret false) :
    (EDrawingsPreview.LoadFile args env s).2.1.m_isAttached = true ∧
    (EDrawingsPreview.LoadFile args env s).2.1.m_isFileLoaded = false := by
  obtain ⟨hctl, hdsp, hc⟩ := attached_fields s (strongInv_reachable s hr) hatt
  rcases args with _ | ⟨v, rest⟩
  · simp [EDrawingsPreview.LoadFile, hatt, hdsp] at hfail
  · cases v with
    | str path =>
      by_cases hg : env.getIdsOk = true
      · have hi : env.invokeOk = false := by
          simpa [EDrawingsPreview.LoadFile, hatt, hdsp, hg] using hfail
        simp [EDrawingsPreview.LoadFile, hatt, hdsp, hg, hi]
      · simp [EDrawingsPreview.LoadFile, hatt, hdsp, hg]
    | num n => simp [EDrawingsPreview.LoadFile, hatt, hdsp] at hfail
    | buf bytes => simp [EDrawingsPreview.LoadFile, hatt, hdsp] at hfail
    | other => simp [EDrawingsPreview.LoadFile, hatt, hdsp] at hfail

/-- Claim C3 witness: on the attached state, a load whose Invoke call fails
returns false and leaves the instance attached and not loaded. -/
theorem c3_witness :
    (EDrawingsPreview.LoadFile [JsVal.str "C:\\part.SLDPRT"]
        { getIdsOk := true, invokeOk := false } attachedState).2.1.m_isAttached
      = true ∧
    (EDrawingsPreview.LoadFile [JsVal.str "C:\\part.SLDPRT"]
        { getIdsOk := true, invokeOk := false }
        attachedState).2.1.m_isFileLoaded = false :=
  c3_load_failure_attached_unloaded [JsVal.str "C:\\part.SLDPRT"]
    { getIdsOk := true, invokeOk := false } attachedState
    ⟨[Op.attach [JsVal.num 5] envAllOk], rfl⟩ (by decide) (by decide)

/-- Predicate for the `IsBuffer` / `IsNumber` type test at lines 261-266:
these are the only argument types from which `AttachToWindow` decodes a
handle. -/
def jsIsBufferOrNumber : JsVal → Bool
  | JsVal.num _ => true
  | JsVal.buf _ => true
  | _ => false

/-- Predicate for the `info.Length() < 1 || !info[0].IsString()` test at
line 284 of `LoadFile`: true exactly when a string first argument exists. -/
def headIsString : List JsVal → Bool
  | JsVal.str _ :: _ => true
  | _ => false

/-- Claim C4 counterexample: attachToWindow called with one argument of the
wrong type (a string) does not throw: the handle local keeps its null
initializer and the call reports boolean false, so a wrong-type argument is
not surfaced as a thrown error. -/
theorem c4_counterexample :
    (EDrawingsPreview.AttachToWindow [JsVal.str "7"] envAllOk initState).1
      = NapiResult.ret false := by
  decide

/-- Claim C4 (amended): wrong-arity calls surface a thrown TypeError —
attachToWindow with no arguments always, setBounds with fewer than four
arguments when a container window exists — and a missing or non-string
first argument to loadFile throws when the instance is attached with a
dispatch reference; but a first argument to attachToWindow that is neither
a buffer nor a number is treated as a null handle and reported as a boolean
false return rather than thrown, and when the operational guard fails (not
attached for loadFile, no container window for setBounds) the call returns
false without its argument checks ever running. -/
theorem c4_error_taxonomy (s : PreviewState) (aenv : AttachEnv)
    (lenv : LoadEnv) (benv : BoundsEnv) (v : JsVal) (args : List JsVal) :
    ((EDrawingsPreview.AttachToWindow [] aenv s).1
        = NapiResult.threw "Window handle (HWND as number) expected") ∧
    (jsIsBufferOrNumber v = false →
      EDrawingsPreview.AttachToWindow [v] aenv s
        = (NapiResult.ret false, s, [])) ∧
    (s.m_isAttached = true → s.m_pDispatch = true → headIsString args = false →
      (EDrawingsPreview.LoadFile args lenv s).1
        = NapiResult.threw "File path expected") ∧
    ((s.m_isAttached = false ∨ s.m_pDispatch = false) →
      (EDrawingsPreview.LoadFile args lenv s).1 = NapiResult.ret false) ∧
    (s.m_hwndContainer ≠ 0 → args.length < 4 →
      (EDrawingsPreview.SetBounds args benv s).1
        = NapiResult.threw "x, y, width, height expected") ∧
    (s.m_hwndContainer = 0 →
      (EDrawingsPreview.SetBounds args benv s).1 = NapiResult.ret false) := by
  refine ⟨rfl, ?_, ?_, ?_, ?_, ?_⟩
  · intro hv
    cases v <;>
      simp_all [jsIsBufferOrNumber, EDrawingsPreview.AttachToWindow,
        attachHwnd]
  · intro h1 h2 h3
    rcases args with _ | ⟨v0, rest⟩
    · simp [EDrawingsPreview.LoadFile, h1, h2]
    · cases v0 <;> simp_all [headIsString, EDrawingsPreview.LoadFile]
  · intro h
    unfold EDrawingsPreview.LoadFile
    rcases h with h | h <;> simp [h]
  · intro h1 h2
    simp [EDrawingsPreview.SetBounds, h1, h2]
  · intro h
    simp [EDrawingsPreview.SetBounds, h]

/-- Claim C4 witness at concrete inputs: arity errors throw on a fresh
instance (attach) and on an attached instance (loadFile wrong type,
setBounds short arity), while a wrong-type attach argument and guarded
loadFile and setBounds calls return false. -/
theorem c4_witness :
    ((EDrawingsPreview.AttachToWindow [] envAllOk initState).1
        = NapiResult.threw "Window handle (HWND as number) expected") ∧
    (EDrawingsPreview.AttachToWindow [JsVal.other] envAllOk initState
        = (NapiResult.ret false, initState, [])) ∧
    ((EDrawingsPreview.LoadFile [] { getIdsOk := true, invokeOk := true }
        initState).1 = NapiResult.ret false) ∧
    ((EDrawingsPreview.SetBounds [] { setWindowPosOk := true } initState).1
        = NapiResult.ret false) ∧
    ((EDrawingsPreview.LoadFile [JsVal.num 1]
        { getIdsOk := true, invokeOk := true } attachedState).1
        = NapiResult.threw "File path expected") ∧
    ((EDrawingsPreview.SetBounds [JsVal.num 1] { setWindowPosOk := true }
        attachedState).1 = NapiResult.threw "x, y, width, height expected") := by
  obtain ⟨h1, h2, h3, h4, h5, h6⟩ :=
    c4_error_taxonomy initState envAllOk { getIdsOk := true, invokeOk := true }
      { setWindowPosOk := true } JsVal.other []
  obtain ⟨g1, g2, g3, g4, g5, g6⟩ :=
    c4_error_taxonomy attachedState envAllOk
      { getIdsOk := true, invokeOk := true } { setWindowPosOk := true }
      JsVal.other [JsVal.num 1]
  exact ⟨h1, h2 (by decide), h4 (Or.inl (by decide)), h6 (by decide),
    g3 (by decide) (by decide) (by decide), g5 (by decide) (by decide)⟩

/-- Helper: on a state holding no container window and no COM references, an
attachToWindow call either leaves the state exactly unchanged (every failure
path restores the fields it wrote) or returns true. -/
theorem attach_clean_cases (args : List JsVal) (env : AttachEnv)
    (p : Nat) (ld : Bool) :
    (EDrawingsPreview.AttachToWindow args env
        ⟨p, 0, false, false, false, ld⟩).2.1
      = ⟨p, 0, false, false, false, ld⟩ ∨
    (EDrawingsPreview.AttachToWindow args env
        ⟨p, 0, false, false, false, ld⟩).1 = NapiResult.ret true := by
  by_cases hl : args.length < 1
  · left; simp [EDrawingsPreview.AttachToWindow, hl]
  · by_cases hw : attachHwnd args = 0 ∨ env.isWindow (attachHwnd args) = false
    · left; simp [EDrawingsPreview.AttachToWindow, hl, hw]
    · by_cases hc : env.createWindowHwnd = 0
      · left
        simp [EDrawingsPreview.AttachToWindow, EDrawingsPreview.CreateControl,
          hl, hw, hc]
      · by_cases hcc : env.coCreateOk = true
        · by_cases hq : env.queryInterfaceOk = true
          · right
            simp [EDrawingsPreview.AttachToWindow,
              EDrawingsPreview.CreateControl, hl, hw, hc, hcc, hq]
          · left
            simp [EDrawingsPreview.AttachToWindow,
              EDrawingsPreview.CreateControl, hl, hw, hc, hcc, hq]
        · left
          simp [EDrawingsPreview.AttachToWindow,
            EDrawingsPreview.CreateControl, hl, hw, hc, hcc]

/-- Claim C5 counterexample: an instance attached to parent 5 and then
destroyed is Unattached; a later attach attempt whose container window
creation fails returns false and retains no partial resources, yet the
resulting state is not the initial state: the stale parent handle member
still holds 5. -/
theorem c5_counterexample :
    detachedState.m_isAttached = false ∧
    (EDrawingsPreview.AttachToWindow [JsVal.num 9] envCreateFails
        detachedState).1 = NapiResult.ret false ∧
    (EDrawingsPreview.AttachToWindow [JsVal.num 9] envCreateFails
        detachedState).2.1 ≠ initState := by
  decide

/-- Claim C5 (amended): on a reachable unattached instance, every
attachToWindow call that returns false leaves the state exactly as it was
before the call — unattached, no container window, no control or dispatch
reference, loaded flag false — so no partially-created window or COM
reference is retained; the state equals the initial one except that the
write-only parent handle member may still hold the value from an earlier
successful attach. -/
theorem c5_attach_failure_no_partial (args : List JsVal) (env : AttachEnv)
    (s : PreviewState) (hr : Reachable s) (hun : s.m_isAttached = false)
    (hfail : (EDrawingsPreview.AttachToWindow args env s).1
      = NapiResult.ret false) :
    (EDrawingsPreview.AttachToWindow args env s).2.1 = s ∧
    s.m_hwndContainer = 0 ∧ s.m_pControl = false ∧ s.m_pDispatch = false ∧
    s.m_isFileLoaded = false := by
  have hshape := unattached_shape s (strongInv_reachable s hr) hun
  rw [hshape] at hfail ⊢
  rcases attach_clean_cases args env s.m_hwndParent false with hcase | hcase
  · exact ⟨hcase, rfl, rfl, rfl, rfl⟩
  · rw [hcase] at hfail
    exact absurd hfail (by simp)

/-- Claim C5 witness: failing window creation on the destroyed-then-reused
instance leaves its state exactly unchanged. -/
theorem c5_witness :
    (EDrawingsPreview.AttachToWindow [JsVal.num 9] envCreateFails
        detachedState).2.1 = detachedState ∧
    detachedState.m_hwndContainer = 0 ∧ detachedState.m_pControl = false ∧
    detachedState.m_pDispatch = false ∧ detachedState.m_isFileLoaded = false :=
  c5_attach_failure_no_partial [JsVal.num 9] envCreateFails detachedState
    ⟨[Op.attach [JsVal.num 5] envAllOk, Op.destroyOp], rfl⟩ (by decide)
    (by decide)

/-- Result object of `checkEDrawingsInstalled`: the `installed` flag and the
`path` property, with the null path modelled as `none`. -/
structure InstallResult where
  installed : Bool
  path : Option String
deriving Repr, DecidableEq

/-- Outcomes of the filesystem and registry probes made by
`CheckEDrawingsInstalled`: which paths `PathFileExistsW` reports as existing,
whether `RegOpenKeyExW` opens the eDrawings key, and the `InstallPath` value
`RegQueryValueExW` returns (`none` = failure). -/
structure InstallEnv where
  pathFileExists : String → Bool
  regOpenOk : Bool
  regQueryValue : Option String

/-- Fixed ordered list of well-known install locations probed by
`CheckEDrawingsInstalled` (lines 62-67 of the source). -/
def installPaths : List String :=
  ["C:\\Program Files\\SOLIDWORKS Corp\\eDrawings\\eDrawings.exe",
   "C:\\Program Files\\eDrawings\\eDrawings.exe",
   "C:\\Program Files (x86)\\eDrawings\\eDrawings.exe",
   "C:\\Program Files\\SOLIDWORKS Corp\\SOLIDWORKS\\eDrawings\\eDrawings.exe"]

/-- Embedding of `CheckEDrawingsInstalled` (lines 58-112): return the first
probed filesystem path that exists as installed; otherwise, when the
registry key opens and the `InstallPath` value reads back, return that path;
otherwise report not installed with a null path.  The function only reads
the probed environment and mutates nothing. -/
def CheckEDrawingsInstalled (env : InstallEnv) : InstallResult :=
  match installPaths.find? env.pathFileExists with
  | some p => { installed := true, path := some p }
  | none =>
    if env.regOpenOk then
      match env.regQueryValue with
      | some p => { installed := true, path := some p }
      | none => { installed := false, path := none }
    else { installed := false, path := none }

/-- Claim C9: checkInstalled examines the fixed ordered list of well-known
filesystem install paths and returns the first existing one as installed
with that path; when none exists it falls back to the registry lookup and
returns its value; and when no filesystem path exists and the registry
lookup fails (key does not open, or the value does not read back) it
returns not installed with an absent path.  The embedding is a pure
function of the probed environment, so it has no side effects. -/
theorem c9_checkInstalled_spec (env : InstallEnv) :
    (∀ p, installPaths.find? env.pathFileExists = some p →
      CheckEDrawingsInstalled env = { installed := true, path := some p }) ∧
    (installPaths.find? env.pathFileExists = none → env.regOpenOk = true →
      ∀ p, env.regQueryValue = some p →
      CheckEDrawingsInstalled env = { installed := true, path := some p }) ∧
    (installPaths.find? env.pathFileExists = none →
      (env.regOpenOk = false ∨ env.regQueryValue = none) →
      CheckEDrawingsInstalled env = { installed := false, path := none }) := by
  refine ⟨?_, ?_, ?_⟩
  · intro p hp
    simp [CheckEDrawingsInstalled, hp]
  · intro hn ho p hq
    simp [CheckEDrawingsInstalled, hn, ho, hq]
  · intro hn h
    rcases h with h | h
    · simp [CheckEDrawingsInstalled, hn, h]
    · by_cases ho : env.regOpenOk = true <;>
        simp [CheckEDrawingsInstalled, hn, h, ho]

/-- Claim C9 witness at concrete environments: every path existing yields
the first probed path, and nothing existing with a failed registry lookup
yields not installed with an absent path. -/
theorem c9_witness :
    CheckEDrawingsInstalled
        { pathFileExists := fun _ => true, regOpenOk := false,
          regQueryValue := none }
      = { installed := true,
          path := some
            "C:\\Program Files\\SOLIDWORKS Corp\\eDrawings\\eDrawings.exe" } ∧
    CheckEDrawingsInstalled
        { pathFileExists := fun _ => false, regOpenOk := false,
          regQueryValue := none }
      = { installed := false, path := none } := by
  obtain ⟨w1, w2, w3⟩ := c9_checkInstalled_spec
    { pathFileExists := fun _ => true, regOpenOk := false,
      regQueryValue := none }
  obtain ⟨u1, u2, u3⟩ := c9_checkInstalled_spec
    { pathFileExists := fun _ => false, regOpenOk := false,
      regQueryValue := none }
  exact ⟨w1 _ rfl, u3 rfl (Or.inl rfl)⟩
